import Mathlib

/-!
Shallow embedding of the core passenger-assignment loop of
`fasttrips/Assignment.py`, together with theorems checking the
natural-language specification against the code.

Conventions of the embedding:
* pandas data frames become Lean lists of structures holding exactly the
  columns the modelled code reads or writes;
* times are integer minutes (`ℤ`); smoothed (MSA) quantities are rationals;
* a `groupby(...).cumcount()` becomes an explicit count of earlier rows
  with the same key; `drop_duplicates(keep=first)` becomes a seen-set
  recursion keeping the first occurrence of each key;
* `sort_values` becomes `List.insertionSort` with the corresponding
  lexicographic key relation (a descending key is compared reversed).
-/

namespace FastTrips

/-! ### Assignment driver: capacity gap (Assignment.assign_paths, lines 588-593)

```
num_bumped_passengers = num_paths_found - num_passengers_arrived
if num_paths_found > 0:
    capacity_gap = 100.0*num_bumped_passengers/num_paths_found
else:
    capacity_gap = 100
```
-/

/-- `num_bumped_passengers = num_paths_found - num_passengers_arrived`. -/
def num_bumped_passengers (num_paths_found num_passengers_arrived : ℤ) : ℤ :=
  num_paths_found - num_passengers_arrived

/-- The capacity gap reported at the end of an outer iteration:
`100*num_bumped/num_paths_found` when some pathsets were found, else `100`. -/
def capacity_gap (num_paths_found num_passengers_arrived : ℤ) : ℚ :=
  if 0 < num_paths_found then
    100 * (num_bumped_passengers num_paths_found num_passengers_arrived : ℚ) / (num_paths_found : ℚ)
  else 100

/-! ### Worker pool sizing (Assignment.generate_pathsets, lines 680-690)

```
num_processes       = Assignment.NUMBER_OF_PROCESSES
if  Assignment.NUMBER_OF_PROCESSES < 1:
    num_processes   = multiprocessing.cpu_count()
# it's not worth it unless each process does 3
if num_processes > est_paths_to_find*3:
    num_processes = int(est_paths_to_find/3)
...
if num_processes > 1:   # set up the multiprocessing pool
```
-/

/-- The worker count actually used for pathfinding, as computed by
`generate_pathsets` from the configured `NUMBER_OF_PROCESSES`, the CPU
count and the number of requests to pathfind. -/
def num_processes_for_pathfinding (number_of_processes : ℤ) (cpu_count : ℕ)
    (est_paths_to_find : ℕ) : ℤ :=
  let np : ℤ := if number_of_processes < 1 then (cpu_count : ℤ) else number_of_processes
  if np > (est_paths_to_find : ℤ) * 3 then (est_paths_to_find : ℤ) / 3 else np

/-- The multiprocessing pool is set up exactly when the computed worker
count exceeds 1 (`if num_processes > 1`). -/
def uses_worker_pool (number_of_processes : ℤ) (cpu_count : ℕ)
    (est_paths_to_find : ℕ) : Prop :=
  1 < num_processes_for_pathfinding number_of_processes cpu_count est_paths_to_find

instance (n : ℤ) (c e : ℕ) : Decidable (uses_worker_pool n c e) := by
  unfold uses_worker_pool; infer_instance

/-! ### Pathfinding on even iterations (Assignment.filter_trip_list_to_not_arrived,
lines 606-627, Assignment.generate_pathsets lines 661-669, and
Assignment.merge_pathsets lines 474-518)

The trip list and pathset data frames are modelled by the columns the
filter and merge code reads: the trip-list id used for all the joins, the
path number, the chosen status and the missed-transfer flag. -/

/-- One row of the trip list (one passenger travel request); only the
join column `trip_list_id_num` is read by the modelled code. -/
structure TripListRow where
  trip_list_id_num : ℕ
deriving DecidableEq, Repr

/-- One row of `pathset_paths_df`: a path of a request's pathset. -/
structure PathRow where
  trip_list_id_num : ℕ
  path_num : ℕ
  chosen : ℚ
  missed_xfer : ℕ
deriving DecidableEq, Repr

/-- `Assignment.CHOSEN_NOT_CHOSEN_YET = -1`. -/
def CHOSEN_NOT_CHOSEN_YET : ℚ := -1

/-- `filter_trip_list_to_not_arrived`: keep the trip-list rows that have no
path with `chosen >= 0` (left-merge with the chosen paths, keep the rows
where the merge found nothing). -/
def filter_trip_list_to_not_arrived (trip_list : List TripListRow)
    (pathset_paths : List PathRow) : List TripListRow :=
  trip_list.filter fun r =>
    !(pathset_paths.any fun p =>
        decide (p.trip_list_id_num = r.trip_list_id_num) && decide ((0 : ℚ) ≤ p.chosen))

/-- In `merge_pathsets` the fresh pathset rows get
`chosen = CHOSEN_NOT_CHOSEN_YET` and `missed_xfer = 0` (lines 496-497). -/
def reset_new_path (p : PathRow) : PathRow :=
  { p with chosen := CHOSEN_NOT_CHOSEN_YET, missed_xfer := 0 }

/-- `merge_pathsets`: drop the pathset rows of the requests that were just
pathfound (left-merge with `pathfind_trip_list_df`, keep the null rows)
and append the new pathset rows. -/
def merge_pathsets (pathfind_trip_list : List TripListRow)
    (pathset_paths new_pathset_paths : List PathRow) : List PathRow :=
  (pathset_paths.filter fun p =>
      !(pathfind_trip_list.any fun r => decide (r.trip_list_id_num = p.trip_list_id_num)))
    ++ new_pathset_paths.map reset_new_path

/-- `generate_pathsets` lines 661-669: on even iterations pathfinding is
restricted to the requests that have not arrived; on odd iterations it is
everyone. -/
def pathfind_trip_list (iteration : ℕ) (trip_list : List TripListRow)
    (pathset_paths : List PathRow) : List TripListRow :=
  if iteration % 2 = 0 then filter_trip_list_to_not_arrived trip_list pathset_paths
  else trip_list

/-! ### Vehicle loading (Assignment.put_passengers_on_vehicles, lines 1056-1131)

Boards per `(trip_id, A_id, A_seq)` and alights per `(trip_id, B_id, B_seq)`
count the chosen, unbumped passenger links; onboard is the per-trip
cumulative sum of boards minus alights (`groupby(level=0).cumsum()` on rows
held in stop-sequence order). -/

/-- One chosen passenger path link as read by the vehicle loader: the
bump-iteration marker (−1 = unbumped) and the boarding/alighting
trip-stop keys. -/
structure PaxTripLink where
  trip_list_id_num : ℕ
  bump_iter : ℤ
  trip_id_num : ℕ
  A_id_num : ℕ
  A_seq : ℕ
  B_id_num : ℕ
  B_seq : ℕ
deriving DecidableEq, Repr

/-- One row of `veh_trips_df`: a vehicle trip stop-time, keyed by trip id,
stop sequence and stop id. -/
structure VehStopRow where
  trip_id_num : ℕ
  stop_sequence : ℕ
  stop_id_num : ℕ
deriving DecidableEq, Repr

/-- Boards at a vehicle trip stop: the number of unbumped chosen links
whose `(trip_id_num, A_id_num, A_seq)` match the stop (lines 1067-1090). -/
def veh_boards (chosen_links : List PaxTripLink) (s : VehStopRow) : ℕ :=
  (chosen_links.filter fun l =>
    decide (l.bump_iter = -1) && decide (l.trip_id_num = s.trip_id_num) &&
    decide (l.A_id_num = s.stop_id_num) && decide (l.A_seq = s.stop_sequence)).length

/-- Alights at a vehicle trip stop: the number of unbumped chosen links
whose `(trip_id_num, B_id_num, B_seq)` match the stop (lines 1075-1101). -/
def veh_alights (chosen_links : List PaxTripLink) (s : VehStopRow) : ℕ :=
  (chosen_links.filter fun l =>
    decide (l.bump_iter = -1) && decide (l.trip_id_num = s.trip_id_num) &&
    decide (l.B_id_num = s.stop_id_num) && decide (l.B_seq = s.stop_sequence)).length

/-- Running cumulative sum with accumulator (pandas `cumsum` along a
trip's rows). -/
def cumsum_from (acc : ℤ) : List ℤ → List ℤ
  | [] => []
  | x :: xs => (acc + x) :: cumsum_from (acc + x) xs

/-- The onboard column of one trip (rows in stop-sequence order):
cumulative sum of boards minus alights (lines 1117-1127). -/
def onboard_list (chosen_links : List PaxTripLink) (trip_rows : List VehStopRow) : List ℤ :=
  cumsum_from 0 (trip_rows.map fun s =>
    (veh_boards chosen_links s : ℤ) - (veh_alights chosen_links s : ℤ))

/-! ### MSA smoothing (put_passengers_on_vehicles lines 1109-1118 and
flag_bump_overcap_passengers lines 1305-1309)

```
if bump_iter==0:
    msa_lambda = 1.0/iteration
    veh_loaded_df[MSA_BOARDS ] = msa_lambda*BOARDS  + (1.0-msa_lambda)*MSA_BOARDS
    veh_loaded_df[MSA_ALIGHTS] = msa_lambda*ALIGHTS + (1.0-msa_lambda)*MSA_ALIGHTS
...
veh_loaded_df[MSA_ONBOARD] = MSA_BOARDS - MSA_ALIGHTS   # then per-trip cumsum
...
if iteration==1 and simulation_iteration==0 and bump_iter==0:
    veh_loaded_df[MSA_OVERCAP] = MSA_ONBOARD - TOTAL_CAPACITY
    veh_loaded_df.loc[MSA_OVERCAP<0, MSA_OVERCAP] = 0
```
-/

/-- `msa_lambda = 1.0/iteration`. -/
def msa_lambda (iteration : ℕ) : ℚ := 1 / (iteration : ℚ)

/-- One MSA-smoothed value: `lambda*raw + (1-lambda)*prev` (line 1113). -/
def msa_smooth (iteration : ℕ) (raw prev : ℚ) : ℚ :=
  msa_lambda iteration * raw + (1 - msa_lambda iteration) * prev

/-- The MSA update of a whole column, applied only when `bump_iter == 0`
(lines 1111-1114); otherwise the previous column is kept. -/
def msa_col (bump_iter iteration : ℕ) (raw prev : List ℚ) : List ℚ :=
  if bump_iter = 0 then List.zipWith (msa_smooth iteration) raw prev else prev

/-- Rational running cumulative sum (for the MSA onboard column). -/
def cumsum_rat_from (acc : ℚ) : List ℚ → List ℚ
  | [] => []
  | x :: xs => (acc + x) :: cumsum_rat_from (acc + x) xs

/-- The MSA onboard column of one trip: per-trip cumulative sum of MSA
boards minus MSA alights (lines 1118-1127). -/
def msa_onboard_col (msa_boards msa_alights : List ℚ) : List ℚ :=
  cumsum_rat_from 0 (List.zipWith (fun b a => b - a) msa_boards msa_alights)

/-- The raw overcap (line 1298): onboard minus capacity, negatives kept. -/
def veh_overcap (onboard capacity : ℤ) : ℤ := onboard - capacity

/-- The MSA overcap column (lines 1307-1309): recomputed only at outer
iteration 1, simulation iteration 0, bump iteration 0, as MSA onboard
minus capacity with negatives set to zero; otherwise left at its previous
value. -/
def msa_overcap_update (iteration simulation_iteration bump_iter : ℕ)
    (msa_onboard capacity prev_msa_overcap : ℚ) : ℚ :=
  if iteration = 1 ∧ simulation_iteration = 0 ∧ bump_iter = 0 then
    max (msa_onboard - capacity) 0
  else prev_msa_overcap

/-! ### Capacity enforcement: bumping (Assignment.flag_bump_overcap_passengers,
lines 1394-1433)

```
bumpstop_boards.sort_values(by=[new_A_time, trip_id_num, A_seq,
    pf_A_time, trip_list_id_num], ascending=[True, True, True, False, False])
bpb_count = bumpstop_boards.groupby([trip_id_num, A_seq, A_id_num]).cumcount()
bumpstop_boards["new_bumpstop_boarded"] = 1
bumpstop_boards.loc[bump_index < overcap, "new_bumpstop_boarded"] = 0
```
-/

/-- One bump candidate: a chosen, unbumped passenger link boarding at a
selected bump stop, with the vehicle overcap joined on. -/
structure BumpCand where
  new_A_time : ℤ
  trip_id_num : ℕ
  A_seq : ℕ
  A_id_num : ℕ
  pf_A_time : ℤ
  trip_list_id_num : ℕ
  overcap : ℤ
deriving DecidableEq, Repr

/-- The `sort_values` key order of line 1404: realized A-time ascending,
trip id ascending, boarding stop sequence ascending, then pathfinding
A-time and trip-list (request) id descending. -/
def bump_board_order (x y : BumpCand) : Prop :=
  x.new_A_time < y.new_A_time ∨ (x.new_A_time = y.new_A_time ∧
    (x.trip_id_num < y.trip_id_num ∨ (x.trip_id_num = y.trip_id_num ∧
      (x.A_seq < y.A_seq ∨ (x.A_seq = y.A_seq ∧
        (y.pf_A_time < x.pf_A_time ∨ (x.pf_A_time = y.pf_A_time ∧
          y.trip_list_id_num ≤ x.trip_list_id_num)))))))

instance : DecidableRel bump_board_order := fun x y => by
  unfold bump_board_order; infer_instance

instance : IsTotal BumpCand bump_board_order := ⟨by
  intro a b; unfold bump_board_order; omega⟩

instance : IsTrans BumpCand bump_board_order := ⟨by
  intro a b c; unfold bump_board_order; omega⟩

/-- The sorted bump candidates (line 1404). -/
def sort_bumpstop_boards (cands : List BumpCand) : List BumpCand :=
  List.insertionSort bump_board_order cands

/-- The `groupby` key of the cumcount at lines 1415-1417:
`(trip_id_num, A_seq, A_id_num)`. -/
def board_group (c : BumpCand) : ℕ × ℕ × ℕ := (c.trip_id_num, c.A_seq, c.A_id_num)

/-- `groupby(...).cumcount()`: pair each row with the number of earlier
rows in the same group, given the rows already passed. -/
def cumcount_from : List BumpCand → List BumpCand → List (BumpCand × ℕ)
  | _, [] => []
  | prev, c :: rest =>
    (c, prev.countP fun p => decide (board_group p = board_group c)) ::
      cumcount_from (prev ++ [c]) rest

/-- Lines 1424-1425: `new_bumpstop_boarded` is 1 (boarded), set to 0
(bumped) where the cumcount index is below the vehicle overcap. -/
def new_bumpstop_boarded (ci : BumpCand × ℕ) : ℕ :=
  if (ci.2 : ℤ) < ci.1.overcap then 0 else 1

/-- The whole marking step: sort the candidates, count off per group and
flag each candidate with `new_bumpstop_boarded`. -/
def flag_bumpstop_boards (cands : List BumpCand) : List (BumpCand × ℕ) :=
  (cumcount_from [] (sort_bumpstop_boards cands)).map fun ci =>
    (ci.1, new_bumpstop_boarded ci)

/-- Modelled from the spec (section 4.6 step 4), for comparison with
`flag_bumpstop_boards`: sort the candidates the same way, then let the
first `boards - capacity` candidates keep their boarding (flag 1) and bump
the remainder (flag 0). -/
def spec_bump_marking (boards capacity : ℤ) (cands : List BumpCand) : List (BumpCand × ℕ) :=
  (cumcount_from [] (sort_bumpstop_boards cands)).map fun ci =>
    (ci.1, if (ci.2 : ℤ) < boards - capacity then 1 else 0)

/-! ### The BumpWait registry (Assignment.flag_bump_overcap_passengers,
lines 1464-1486)

```
new_bump_wait = bumpstop_boards[[trip_id_num, stop_sequence, A_id_num,
    pf_A_time]].groupby([trip_id_num, stop_sequence, A_id_num]).first()
...
Assignment.bump_wait_df = pandas.concat([Assignment.bump_wait_df, new_bump_wait])
Assignment.bump_wait_df.drop_duplicates(subset=[trip_id_num, stop_sequence],
                                        inplace=True)
```
-/

/-- One row of `bump_wait_df`. -/
structure BumpWaitRow where
  trip_id_num : ℕ
  stop_sequence : ℕ
  stop_id_num : ℕ
  pf_A_time : ℤ
deriving DecidableEq, Repr

/-- The `drop_duplicates` subset at lines 1485-1486: `(trip_id_num,
stop_sequence)` only (the stop id is not part of the key). -/
def bump_wait_key (r : BumpWaitRow) : ℕ × ℕ := (r.trip_id_num, r.stop_sequence)

/-- `groupby([trip, seq, stop]).first()` over the sorted bump candidates:
the first row of each `(trip_id_num, A_seq, A_id_num)` group supplies the
stored pathfinding A-time (lines 1464-1470). -/
def new_bump_wait_from : List (ℕ × ℕ × ℕ) → List BumpCand → List BumpWaitRow
  | _, [] => []
  | seen, c :: rest =>
    if board_group c ∈ seen then new_bump_wait_from seen rest
    else ⟨c.trip_id_num, c.A_seq, c.A_id_num, c.pf_A_time⟩ ::
      new_bump_wait_from (board_group c :: seen) rest

/-- The bump pass's new registry rows, from the sorted candidates. -/
def new_bump_wait (cands : List BumpCand) : List BumpWaitRow :=
  new_bump_wait_from [] (sort_bumpstop_boards cands)

/-- `drop_duplicates(keep=first)` on the `(trip, sequence)` key: keep the
first occurrence of each key. -/
def drop_duplicate_bump_keys : List (ℕ × ℕ) → List BumpWaitRow → List BumpWaitRow
  | _, [] => []
  | seen, r :: rest =>
    if bump_wait_key r ∈ seen then drop_duplicate_bump_keys seen rest
    else r :: drop_duplicate_bump_keys (bump_wait_key r :: seen) rest

/-- Merging a bump pass's rows into the registry (lines 1476-1486):
concatenate the old registry and the new rows, then drop duplicate
`(trip, sequence)` keys keeping the first (old) occurrence. -/
def merge_bump_wait (old_rows new_rows : List BumpWaitRow) : List BumpWaitRow :=
  drop_duplicate_bump_keys [] (old_rows ++ new_rows)

/-- Registry lookup: the stored pathfinding A-time of the first row with
the given `(trip, sequence)` key. -/
def bump_wait_lookup (rows : List BumpWaitRow) (k : ℕ × ℕ) : Option ℤ :=
  (rows.find? fun r => decide (bump_wait_key r = k)).map fun r => r.pf_A_time

/-! ### SIGINT handling in generate_pathsets (lines 830-839)

```
except (KeyboardInterrupt, SystemExit):
    ...
    FastTripsLogger.error("Terminating processes")
    # terminating my processes
    for proc in process_dict:
        proc.terminate()
    sys.exit(2)
```

`process_dict` maps worker numbers (ints) to per-worker entries, so the
`for` loop iterates the integer keys; the embedding keeps the dynamic
typing explicit: attribute access `terminate` succeeds on a process object
and raises `AttributeError` on an int. -/

/-- A worker entry of `process_dict` (the process handle itself is
irrelevant to the handler's control flow). -/
structure ProcessEntry where
  alive : Bool
  done : Bool
deriving DecidableEq, Repr

/-- A Python value reached by the handler loop: an integer dict key or a
process object. -/
inductive PyRef where
  | intRef (n : ℕ)
  | processRef (p : ProcessEntry)
deriving DecidableEq, Repr

/-- Iterating a Python dict yields its keys. -/
def iterate_dict (process_dict : List (ℕ × ProcessEntry)) : List PyRef :=
  process_dict.map fun kv => PyRef.intRef kv.1

/-- `proc.terminate()`: defined on process objects, an `AttributeError`
on an int. -/
def terminate_attr : PyRef → Except String Unit
  | PyRef.processRef _ => Except.ok ()
  | PyRef.intRef _ => Except.error "AttributeError"

/-- Run `proc.terminate()` over the iterated values; the first exception
propagates. -/
def terminate_each : List PyRef → Except String Unit
  | [] => Except.ok ()
  | r :: rest =>
    match terminate_attr r with
    | Except.ok _ => terminate_each rest
    | Except.error e => Except.error e

/-- The `except (KeyboardInterrupt, SystemExit)` handler body: loop
`for proc in process_dict: proc.terminate()` and then `sys.exit(2)`;
an exception raised inside the loop escapes before the exit. -/
def handle_keyboard_interrupt (process_dict : List (ℕ × ProcessEntry)) : Except String ℕ :=
  match terminate_each (iterate_dict process_dict) with
  | Except.ok _ => Except.ok 2
  | Except.error e => Except.error e

/-! ### Missed transfers (Assignment.flag_missed_transfers, lines 1241-1262)

Only the columns read by the flagging step are modelled: whether the link
is a trip link (`trip_id_num` non-null), the vehicle board time and the
recomputed (new) A time. -/

/-- One row of `pathset_links_df` as read by the missed-transfer flagging
step at lines 1241-1252. -/
structure SimPathLink where
  trip_list_id_num : ℕ
  path_num : ℕ
  is_trip_link : Bool
  board_time : ℤ
  new_A_time : ℤ
deriving DecidableEq, Repr

/-- The recomputed wait time (line 1242): set only on trip links, as the
vehicle board time minus the new passenger A time. -/
def new_wait_time (l : SimPathLink) : Option ℤ :=
  if l.is_trip_link then some (l.board_time - l.new_A_time) else none

/-- The link missed-transfer flag (lines 1245-1246): 1 exactly where the
new wait time is present and negative. -/
def link_missed_xfer (l : SimPathLink) : ℕ :=
  match new_wait_time l with
  | some w => if w < 0 then 1 else 0
  | none => 0

/-- The path missed-transfer flag (lines 1249-1252): sum the link flags
per (trip-list id, path number) group and clip positive sums to 1. -/
def path_missed_xfer (links : List SimPathLink) (tl pn : ℕ) : ℕ :=
  let s := ((links.filter fun l =>
      decide (l.trip_list_id_num = tl) && decide (l.path_num = pn)).map link_missed_xfer).sum
  if 0 < s then 1 else s

end FastTrips

namespace FastTrips

/-- Claim C6: at the end of each outer iteration the driver reports
capacity gap `= 100*(assigned - arrived)/assigned` whenever the number of
assigned requests (pathsets found) is positive. -/
theorem capacity_gap_formula (num_paths_found num_passengers_arrived : ℤ)
    (h : 0 < num_paths_found) :
    capacity_gap num_paths_found num_passengers_arrived =
      100 * ((num_paths_found : ℚ) - (num_passengers_arrived : ℚ)) / (num_paths_found : ℚ) := by
  unfold capacity_gap num_bumped_passengers
  rw [if_pos h]
  push_cast
  ring

/-- Witness for C6 at `assigned = 4`, `arrived = 3`. -/
theorem capacity_gap_formula_witness :
    (0 : ℤ) < 4 ∧ capacity_gap 4 3 = 100 * ((4 : ℚ) - (3 : ℚ)) / (4 : ℚ) :=
  ⟨by decide, capacity_gap_formula 4 3 (by decide)⟩

/-- Claim C10: when an outer iteration finds zero pathsets the division is
guarded and the reported capacity gap is 100. -/
theorem capacity_gap_zero_assigned (num_passengers_arrived : ℤ) :
    capacity_gap 0 num_passengers_arrived = 100 := by
  unfold capacity_gap
  norm_num

/-- Claim C7 (failing input): with `NUMBER_OF_PROCESSES = 2` configured and
4 requests to pathfind, the code keeps 2 workers and uses the pool even
though there are fewer than 3 requests per worker; the guard
`num_processes > est_paths_to_find*3` has the factor 3 on the wrong side of
the comparison relative to its own comment
("it's not worth it unless each process does 3"). -/
theorem worker_pool_used_with_under_three_requests_per_worker :
    num_processes_for_pathfinding 2 8 4 = 2 ∧
    uses_worker_pool 2 8 4 ∧
    ¬ (3 * 2 ≤ (4 : ℤ)) := by
  refine ⟨by decide, by decide, by decide⟩

/-- Claim C5: on an even outer iteration, pathfinding is restricted to the
requests with no path of chosen status `>= 0`, and merging replaces exactly
those requests' pathset rows with the new rows (reset to not-chosen) while
every other request's retained rows are kept. -/
theorem even_iteration_pathfind_and_merge (iteration : ℕ)
    (trip_list : List TripListRow) (pathset_paths new_pathset_paths : List PathRow)
    (h : iteration % 2 = 0) :
    (∀ r : TripListRow, r ∈ pathfind_trip_list iteration trip_list pathset_paths ↔
       (r ∈ trip_list ∧
        ¬ ∃ p ∈ pathset_paths, p.trip_list_id_num = r.trip_list_id_num ∧ (0 : ℚ) ≤ p.chosen))
    ∧ (∀ q : PathRow,
        q ∈ merge_pathsets (pathfind_trip_list iteration trip_list pathset_paths)
              pathset_paths new_pathset_paths ↔
          ((q ∈ pathset_paths ∧
            ∀ r ∈ pathfind_trip_list iteration trip_list pathset_paths,
              r.trip_list_id_num ≠ q.trip_list_id_num)
            ∨ ∃ p ∈ new_pathset_paths, q = reset_new_path p)) := by
  constructor
  · intro r
    unfold pathfind_trip_list
    rw [if_pos h]
    unfold filter_trip_list_to_not_arrived
    simp only [List.mem_filter, Bool.not_eq_true', List.any_eq_false,
      Bool.and_eq_true, decide_eq_true_eq, not_exists, not_and]
  · intro q
    unfold merge_pathsets
    simp only [List.mem_append, List.mem_filter, List.mem_map,
      Bool.not_eq_true', List.any_eq_false, decide_eq_true_eq]
    tauto

/-- Witness for C5 at iteration 2 with one arrived and one never-arrived
request. -/
theorem even_iteration_pathfind_and_merge_witness :
    (2 % 2 = 0) ∧
    ((∀ r : TripListRow, r ∈ pathfind_trip_list 2 [⟨1⟩, ⟨2⟩] [⟨1, 0, 2, 0⟩] ↔
       (r ∈ [(⟨1⟩ : TripListRow), ⟨2⟩] ∧
        ¬ ∃ p ∈ [(⟨1, 0, 2, 0⟩ : PathRow)], p.trip_list_id_num = r.trip_list_id_num ∧ (0 : ℚ) ≤ p.chosen))
    ∧ (∀ q : PathRow,
        q ∈ merge_pathsets (pathfind_trip_list 2 [⟨1⟩, ⟨2⟩] [⟨1, 0, 2, 0⟩])
              [⟨1, 0, 2, 0⟩] [⟨2, 0, 0, 0⟩] ↔
          ((q ∈ [(⟨1, 0, 2, 0⟩ : PathRow)] ∧
            ∀ r ∈ pathfind_trip_list 2 [⟨1⟩, ⟨2⟩] [⟨1, 0, 2, 0⟩],
              r.trip_list_id_num ≠ q.trip_list_id_num)
            ∨ ∃ p ∈ [(⟨2, 0, 0, 0⟩ : PathRow)], q = reset_new_path p))) :=
  ⟨by decide, even_iteration_pathfind_and_merge 2 [⟨1⟩, ⟨2⟩] [⟨1, 0, 2, 0⟩] [⟨2, 0, 0, 0⟩] (by decide)⟩

/-- Entry `k` of a running cumulative sum is the accumulator plus the sum
of the first `k+1` entries. -/
theorem cumsum_from_get :
    ∀ (xs : List ℤ) (acc : ℤ) (k : ℕ) (h : k < (cumsum_from acc xs).length),
      (cumsum_from acc xs).get ⟨k, h⟩ = acc + (xs.take (k + 1)).sum
  | [], acc, k, h => absurd h (by simp [cumsum_from])
  | x :: xs, acc, 0, h => by simp [cumsum_from]
  | x :: xs, acc, k + 1, h => by
    have h2 : k < (cumsum_from (acc + x) xs).length := by
      simpa [cumsum_from] using h
    have ih := cumsum_from_get xs (acc + x) k h2
    simp only [cumsum_from, List.get_cons_succ, List.take_succ_cons, List.sum_cons]
    rw [ih]
    ring

/-- Claim C3: after the vehicle loader runs on any set of chosen passenger
links, the onboard count of a trip at row `k` equals the sum over rows
`j <= k` of boards minus alights. -/
theorem onboard_is_cumulative_boards_minus_alights
    (chosen_links : List PaxTripLink) (trip_rows : List VehStopRow) (k : ℕ)
    (hk : k < (onboard_list chosen_links trip_rows).length) :
    (onboard_list chosen_links trip_rows).get ⟨k, hk⟩ =
      ((trip_rows.take (k + 1)).map fun s =>
        (veh_boards chosen_links s : ℤ) - (veh_alights chosen_links s : ℤ)).sum := by
  unfold onboard_list at hk ⊢
  rw [cumsum_from_get _ _ _ hk, List.map_take]
  ring

/-- Witness for C3: one passenger boarding at stop sequence 1 and
alighting at stop sequence 2 of trip 1; at row `k = 1` the onboard count
is 0, the cumulative sum of boards minus alights. -/
theorem onboard_is_cumulative_boards_minus_alights_witness :
    (onboard_list [⟨1, -1, 1, 10, 1, 11, 2⟩] [⟨1, 1, 10⟩, ⟨1, 2, 11⟩]).get ⟨1, by decide⟩ =
      (([(⟨1, 1, 10⟩ : VehStopRow), ⟨1, 2, 11⟩].take 2).map fun s =>
        (veh_boards [⟨1, -1, 1, 10, 1, 11, 2⟩] s : ℤ) -
          (veh_alights [⟨1, -1, 1, 10, 1, 11, 2⟩] s : ℤ)).sum :=
  onboard_is_cumulative_boards_minus_alights
    [⟨1, -1, 1, 10, 1, 11, 2⟩] [⟨1, 1, 10⟩, ⟨1, 2, 11⟩] 1 (by decide)

/-- MSA smoothing commutes with the running cumulative sum of differences:
smoothing boards and alights entrywise and then accumulating equals
accumulating first and smoothing the onboard entries. -/
theorem cumsum_zipWith_msa_smooth (n : ℕ) :
    ∀ (b a pb pa : List ℚ) (acc1 acc2 : ℚ),
      b.length = a.length → b.length = pb.length → a.length = pa.length →
      cumsum_rat_from (msa_smooth n acc1 acc2)
        (List.zipWith (fun x y => x - y)
          (List.zipWith (msa_smooth n) b pb) (List.zipWith (msa_smooth n) a pa))
      = List.zipWith (msa_smooth n)
          (cumsum_rat_from acc1 (List.zipWith (fun x y => x - y) b a))
          (cumsum_rat_from acc2 (List.zipWith (fun x y => x - y) pb pa))
  | [], a, pb, pa, acc1, acc2, hba, hbp, hap => by
    simp [cumsum_rat_from]
  | x :: b, [], pb, pa, acc1, acc2, hba, hbp, hap => by simp at hba
  | x :: b, y :: a, [], pa, acc1, acc2, hba, hbp, hap => by simp at hbp
  | x :: b, y :: a, p :: pb, [], acc1, acc2, hba, hbp, hap => by simp at hap
  | x :: b, y :: a, p :: pb, q :: pa, acc1, acc2, hba, hbp, hap => by
    simp only [List.zipWith_cons_cons, cumsum_rat_from]
    have hhead : msa_smooth n acc1 acc2 + (msa_smooth n x p - msa_smooth n y q)
        = msa_smooth n (acc1 + (x - y)) (acc2 + (p - q)) := by
      unfold msa_smooth
      ring
    rw [hhead,
      cumsum_zipWith_msa_smooth n b a pb pa (acc1 + (x - y)) (acc2 + (p - q))
        (by simpa using hba) (by simpa using hbp) (by simpa using hap)]

/-- Claim C4 (amended): when MSA smoothing is applied (bump iteration 0)
at outer iteration `n`, the smoothed boards and alights columns equal
`(1/n)*raw + (1-1/n)*prev` entrywise, and the resulting MSA onboard column
(the cumulative sum of smoothed boards minus alights) equals
`(1/n)*onboard_raw + (1-1/n)*onboard_prev` entrywise; the MSA overcap
column does not follow this formula: it is recomputed only at outer
iteration 1 (simulation iteration 0, bump iteration 0), as MSA onboard
minus capacity clipped below at zero, and keeps its previous value
otherwise. -/
theorem msa_smoothing_boards_alights_onboard (n : ℕ) (_hn : 1 ≤ n)
    (boards alights prev_msa_boards prev_msa_alights : List ℚ)
    (hba : boards.length = alights.length)
    (hbp : boards.length = prev_msa_boards.length)
    (hap : alights.length = prev_msa_alights.length) :
    msa_col 0 n boards prev_msa_boards
        = List.zipWith (fun x p => (1 / (n : ℚ)) * x + (1 - 1 / (n : ℚ)) * p)
            boards prev_msa_boards
    ∧ msa_col 0 n alights prev_msa_alights
        = List.zipWith (fun x p => (1 / (n : ℚ)) * x + (1 - 1 / (n : ℚ)) * p)
            alights prev_msa_alights
    ∧ msa_onboard_col (msa_col 0 n boards prev_msa_boards) (msa_col 0 n alights prev_msa_alights)
        = List.zipWith (fun x p => (1 / (n : ℚ)) * x + (1 - 1 / (n : ℚ)) * p)
            (msa_onboard_col boards alights)
            (msa_onboard_col prev_msa_boards prev_msa_alights)
    ∧ (∀ (it si bi : ℕ) (ob cap prev : ℚ), ¬(it = 1 ∧ si = 0 ∧ bi = 0) →
        msa_overcap_update it si bi ob cap prev = prev)
    ∧ (∀ ob cap prev : ℚ, msa_overcap_update 1 0 0 ob cap prev = max (ob - cap) 0) := by
  have hcol : ∀ raw prev : List ℚ, msa_col 0 n raw prev
      = List.zipWith (fun x p => (1 / (n : ℚ)) * x + (1 - 1 / (n : ℚ)) * p) raw prev := by
    intro raw prev
    unfold msa_col msa_smooth msa_lambda
    rw [if_pos rfl]
  refine ⟨hcol boards prev_msa_boards, hcol alights prev_msa_alights, ?_, ?_, ?_⟩
  · have hz : msa_smooth n 0 0 = 0 := by
      unfold msa_smooth
      ring
    unfold msa_col msa_onboard_col
    rw [if_pos rfl, if_pos rfl, ← hz,
      cumsum_zipWith_msa_smooth n boards alights prev_msa_boards prev_msa_alights 0 0 hba hbp hap]
    rw [hz]
    have : (msa_smooth n) = fun x p => (1 / (n : ℚ)) * x + (1 - 1 / (n : ℚ)) * p := by
      funext x p
      unfold msa_smooth msa_lambda
      ring
    rw [this]
  · intro it si bi ob cap prev hno
    unfold msa_overcap_update
    rw [if_neg hno]
  · intro ob cap prev
    unfold msa_overcap_update
    rw [if_pos ⟨rfl, rfl, rfl⟩]

/-- Witness for C4 at outer iteration 2 with one-row columns. -/
theorem msa_smoothing_boards_alights_onboard_witness :
    (1 ≤ 2) ∧
    (msa_col 0 2 [4] [2] = List.zipWith (fun x p => (1 / (2 : ℚ)) * x + (1 - 1 / (2 : ℚ)) * p) [4] [2]
    ∧ msa_col 0 2 [1] [1] = List.zipWith (fun x p => (1 / (2 : ℚ)) * x + (1 - 1 / (2 : ℚ)) * p) [1] [1]
    ∧ msa_onboard_col (msa_col 0 2 [4] [2]) (msa_col 0 2 [1] [1])
        = List.zipWith (fun x p => (1 / (2 : ℚ)) * x + (1 - 1 / (2 : ℚ)) * p)
            (msa_onboard_col [4] [1]) (msa_onboard_col [2] [1])
    ∧ (∀ (it si bi : ℕ) (ob cap prev : ℚ), ¬(it = 1 ∧ si = 0 ∧ bi = 0) →
        msa_overcap_update it si bi ob cap prev = prev)
    ∧ (∀ ob cap prev : ℚ, msa_overcap_update 1 0 0 ob cap prev = max (ob - cap) 0)) :=
  ⟨by decide, msa_smoothing_boards_alights_onboard 2 (by decide) [4] [1] [2] [1] rfl rfl rfl⟩

/-- Counterexample to claim C4 as stated: at outer iteration 1 (where
`1/n = 1`) with raw onboard 0 and capacity 10, the code computes an MSA
overcap of 0 (clipped at zero), while the claimed formula
`(1/n)*overcap_raw + (1-1/n)*prev` gives −10. -/
theorem msa_overcap_not_msa_formula :
    msa_overcap_update 1 0 0 0 10 0 = 0 ∧
    msa_lambda 1 * ((veh_overcap 0 10 : ℤ) : ℚ) + (1 - msa_lambda 1) * 0 = -10 ∧
    (0 : ℚ) ≠ -10 := by
  refine ⟨?_, ?_, by norm_num⟩
  · unfold msa_overcap_update
    norm_num
  · unfold msa_lambda veh_overcap
    norm_num

/-- The cumcount pairing leaves the underlying rows unchanged. -/
theorem cumcount_from_map_fst :
    ∀ (prev l : List BumpCand), (cumcount_from prev l).map Prod.fst = l
  | _, [] => rfl
  | prev, c :: rest => by
    unfold cumcount_from
    rw [List.map_cons, cumcount_from_map_fst (prev ++ [c]) rest]

/-- Within one group (all sharing overcap `oc`), the cumcount indices are
consecutive, so the boarded flags of a group are: bumped (0) while the
index is below `oc`, boarded (1) afterwards. -/
theorem cumcount_flags (g : ℕ × ℕ × ℕ) (oc : ℤ) :
    ∀ (l prev : List BumpCand), (∀ c ∈ l, board_group c = g → c.overcap = oc) →
      ((cumcount_from prev l).filter fun ci => decide (board_group ci.1 = g)).map
          new_bumpstop_boarded
        = (List.range' (prev.countP fun p => decide (board_group p = g))
            (l.countP fun c => decide (board_group c = g))).map
            fun (i : ℕ) => if (i : ℤ) < oc then (0 : ℕ) else 1
  | [], prev, _ => by simp [cumcount_from]
  | c :: rest, prev, hl => by
    have ih := cumcount_flags g oc rest (prev ++ [c])
      (fun d hd hdg => hl d (List.mem_cons_of_mem c hd) hdg)
    by_cases hg : board_group c = g
    · have hoc : c.overcap = oc := hl c (List.mem_cons_self c rest) hg
      have hprev : ((prev ++ [c]).countP fun p => decide (board_group p = g))
          = (prev.countP fun p => decide (board_group p = g)) + 1 := by
        rw [List.countP_append]
        simp [hg]
      rw [hprev] at ih
      unfold cumcount_from
      rw [List.filter_cons_of_pos (by simpa using hg), List.map_cons, ih]
      have hrest : ((c :: rest).countP fun d => decide (board_group d = g))
          = (rest.countP fun d => decide (board_group d = g)) + 1 := by
        rw [List.countP_cons]
        simp [hg]
      rw [hrest, List.range'_succ, List.map_cons]
      congr 1
      have hcnt : (prev.countP fun p => decide (board_group p = board_group c))
          = prev.countP fun p => decide (board_group p = g) := by rw [hg]
      simp [new_bumpstop_boarded, hcnt, hoc]
    · have hprev : ((prev ++ [c]).countP fun p => decide (board_group p = g))
          = prev.countP fun p => decide (board_group p = g) := by
        rw [List.countP_append]
        simp [hg]
      rw [hprev] at ih
      unfold cumcount_from
      rw [List.filter_cons_of_neg (by simpa using hg), ih]
      have hrest : ((c :: rest).countP fun d => decide (board_group d = g))
          = rest.countP fun d => decide (board_group d = g) := by
        rw [List.countP_cons]
        simp [hg]
      rw [hrest]

/-- Claim C1 (amended): the bump candidates are sorted by realized A-time
ascending, trip id ascending, boarding stop-sequence ascending, then
pathfinding A-time and request id descending, and in that order, within
each bump-stop group (whose joined vehicle overcap is `oc`), the first
`oc = onboard - capacity` candidates are marked bumped (flag 0) while
every remaining candidate keeps its boarding (flag 1). -/
theorem flag_bump_overcap_marking (cands : List BumpCand) (g : ℕ × ℕ × ℕ) (oc : ℤ)
    (hoc : ∀ c ∈ cands, board_group c = g → c.overcap = oc) :
    List.Sorted bump_board_order ((flag_bumpstop_boards cands).map Prod.fst)
    ∧ List.Perm ((flag_bumpstop_boards cands).map Prod.fst) cands
    ∧ ((flag_bumpstop_boards cands).filter fun cf => decide (board_group cf.1 = g)).map
          Prod.snd
        = (List.range (cands.countP fun c => decide (board_group c = g))).map
            fun (i : ℕ) => if (i : ℤ) < oc then (0 : ℕ) else 1 := by
  have hfst : (flag_bumpstop_boards cands).map Prod.fst = sort_bumpstop_boards cands := by
    unfold flag_bumpstop_boards
    rw [List.map_map]
    have hcomp : (Prod.fst ∘ fun ci : BumpCand × ℕ => (ci.1, new_bumpstop_boarded ci))
        = Prod.fst := rfl
    rw [hcomp, cumcount_from_map_fst]
  have hperm : List.Perm (sort_bumpstop_boards cands) cands :=
    List.perm_insertionSort _ _
  refine ⟨?_, ?_, ?_⟩
  · rw [hfst]
    exact List.sorted_insertionSort _ _
  · rw [hfst]
    exact hperm
  · unfold flag_bumpstop_boards
    rw [List.filter_map, List.map_map]
    have hcomp1 : ((fun cf : BumpCand × ℕ => decide (board_group cf.1 = g)) ∘
        fun ci : BumpCand × ℕ => (ci.1, new_bumpstop_boarded ci))
        = fun ci : BumpCand × ℕ => decide (board_group ci.1 = g) := rfl
    have hcomp2 : (Prod.snd ∘ fun ci : BumpCand × ℕ => (ci.1, new_bumpstop_boarded ci))
        = new_bumpstop_boarded := rfl
    rw [hcomp1, hcomp2]
    have hsortmem : ∀ c ∈ sort_bumpstop_boards cands, board_group c = g → c.overcap = oc :=
      fun c hc => hoc c (hperm.mem_iff.mp hc)
    rw [cumcount_flags g oc (sort_bumpstop_boards cands) [] hsortmem]
    have hcount : ((sort_bumpstop_boards cands).countP fun c => decide (board_group c = g))
        = cands.countP fun c => decide (board_group c = g) := hperm.countP_eq _
    rw [hcount, List.range_eq_range']
    simp

/-- Witness for C1 at a bump stop with two candidates and overcap 1. -/
theorem flag_bump_overcap_marking_witness :
    (∀ c ∈ [(⟨1, 1, 2, 5, 1, 1, 1⟩ : BumpCand), ⟨2, 1, 2, 5, 2, 2, 1⟩],
        board_group c = (1, 2, 5) → c.overcap = 1)
    ∧ (List.Sorted bump_board_order
        ((flag_bumpstop_boards [⟨1, 1, 2, 5, 1, 1, 1⟩, ⟨2, 1, 2, 5, 2, 2, 1⟩]).map Prod.fst)
    ∧ List.Perm
        ((flag_bumpstop_boards [⟨1, 1, 2, 5, 1, 1, 1⟩, ⟨2, 1, 2, 5, 2, 2, 1⟩]).map Prod.fst)
        [⟨1, 1, 2, 5, 1, 1, 1⟩, ⟨2, 1, 2, 5, 2, 2, 1⟩]
    ∧ ((flag_bumpstop_boards [⟨1, 1, 2, 5, 1, 1, 1⟩, ⟨2, 1, 2, 5, 2, 2, 1⟩]).filter
          fun cf => decide (board_group cf.1 = (1, 2, 5))).map Prod.snd
        = (List.range ([(⟨1, 1, 2, 5, 1, 1, 1⟩ : BumpCand), ⟨2, 1, 2, 5, 2, 2, 1⟩].countP
            fun c => decide (board_group c = (1, 2, 5)))).map
            fun (i : ℕ) => if (i : ℤ) < 1 then (0 : ℕ) else 1) :=
  ⟨by decide,
   flag_bump_overcap_marking [⟨1, 1, 2, 5, 1, 1, 1⟩, ⟨2, 1, 2, 5, 2, 2, 1⟩] (1, 2, 5) 1
     (by decide)⟩

/-- Counterexample to claim C1 as stated: at a bump stop with 2 boards,
capacity 1 and overcap 1, the code bumps the first sorted candidate and
boards the second (flags `[0, 1]`), while the spec's marking boards the
first `boards - capacity = 1` candidates and bumps the remainder
(flags `[1, 0]`). -/
theorem bump_marking_differs_from_spec :
    (flag_bumpstop_boards [⟨1, 1, 2, 5, 1, 1, 1⟩, ⟨2, 1, 2, 5, 2, 2, 1⟩]).map Prod.snd
        = [0, 1] ∧
    (spec_bump_marking 2 1 [⟨1, 1, 2, 5, 1, 1, 1⟩, ⟨2, 1, 2, 5, 2, 2, 1⟩]).map Prod.snd
        = [1, 0] ∧
    (flag_bumpstop_boards [⟨1, 1, 2, 5, 1, 1, 1⟩, ⟨2, 1, 2, 5, 2, 2, 1⟩]).map Prod.snd ≠
      (spec_bump_marking 2 1 [⟨1, 1, 2, 5, 1, 1, 1⟩, ⟨2, 1, 2, 5, 2, 2, 1⟩]).map Prod.snd := by
  refine ⟨by decide, by decide, by decide⟩

/-- Claim C9 (failing input): on a `KeyboardInterrupt` with two live
worker processes, the handler iterates the dict keys (integers) and calls
`terminate` on an integer, raising `AttributeError`; the workers are not
terminated and `sys.exit(2)` is never reached. -/
theorem keyboard_interrupt_handler_raises :
    handle_keyboard_interrupt [(1, ⟨true, false⟩), (2, ⟨true, false⟩)]
        = Except.error "AttributeError" ∧
    handle_keyboard_interrupt [(1, ⟨true, false⟩), (2, ⟨true, false⟩)]
        ≠ Except.ok 2 := by
  refine ⟨rfl, ?_⟩
  intro h
  exact Except.noConfusion (rfl.symm.trans h)

/-- Dropping duplicate keys does not change the first row found for a key
that is not among the already-seen keys. -/
theorem find?_drop_duplicate_bump_keys :
    ∀ (seen : List (ℕ × ℕ)) (l : List BumpWaitRow) (k : ℕ × ℕ), k ∉ seen →
      (drop_duplicate_bump_keys seen l).find? (fun r => decide (bump_wait_key r = k))
        = l.find? fun r => decide (bump_wait_key r = k)
  | seen, [], k, hk => rfl
  | seen, r :: rest, k, hk => by
    unfold drop_duplicate_bump_keys
    by_cases hseen : bump_wait_key r ∈ seen
    · rw [if_pos hseen]
      have hne : ¬ (bump_wait_key r = k) := fun h => hk (h ▸ hseen)
      rw [List.find?_cons_of_neg _ (by simpa using hne),
        find?_drop_duplicate_bump_keys seen rest k hk]
    · rw [if_neg hseen]
      by_cases hkey : bump_wait_key r = k
      · rw [List.find?_cons_of_pos _ (by simpa using hkey),
          List.find?_cons_of_pos _ (by simpa using hkey)]
      · rw [List.find?_cons_of_neg _ (by simpa using hkey),
          List.find?_cons_of_neg _ (by simpa using hkey)]
        exact find?_drop_duplicate_bump_keys _ rest k (by
          intro hmem
          rcases List.mem_cons.mp hmem with h | h
          · exact hkey h.symm
          · exact hk h)

/-- Claim C2 (amended): merging a bump pass's rows into the registry keeps
the previously stored value for every `(trip, sequence)` key already
present (first occurrence wins) and inserts the new value only for fresh
keys; in particular the stored value for a key never changes once set, so
it never increases across outer iterations. -/
theorem merge_bump_wait_keeps_old (old_rows new_rows : List BumpWaitRow) (k : ℕ × ℕ) :
    bump_wait_lookup (merge_bump_wait old_rows new_rows) k =
      match bump_wait_lookup old_rows k with
      | some v => some v
      | none => bump_wait_lookup new_rows k := by
  unfold merge_bump_wait bump_wait_lookup
  rw [find?_drop_duplicate_bump_keys [] (old_rows ++ new_rows) k (by simp),
    List.find?_append]
  cases hfind : old_rows.find? fun r => decide (bump_wait_key r = k) <;>
    simp [hfind, Option.or]

/-- Counterexample to claim C2 as stated: with key `(7, 2)` stored as 10
and a new pass producing earliest bumped A-time 5 for the same key, the
merged registry stores 10 (the old value), not the minimum 5. -/
theorem merge_bump_wait_not_minimum :
    bump_wait_lookup (merge_bump_wait [⟨7, 2, 3, 10⟩] [⟨7, 2, 3, 5⟩]) (7, 2) = some 10 ∧
    min (10 : ℤ) 5 = 5 ∧
    bump_wait_lookup (merge_bump_wait [⟨7, 2, 3, 10⟩] [⟨7, 2, 3, 5⟩]) (7, 2) ≠
      some (min (10 : ℤ) 5) := by
  refine ⟨by decide, by decide, by decide⟩

/-- A link missed-transfer flag is 0 or 1. -/
theorem link_missed_xfer_eq_zero_or_one (l : SimPathLink) :
    link_missed_xfer l = 0 ∨ link_missed_xfer l = 1 := by
  unfold link_missed_xfer
  rcases new_wait_time l with _ | w
  · exact Or.inl rfl
  · dsimp only
    split
    · exact Or.inr rfl
    · exact Or.inl rfl

/-- Claim C8: a link is flagged `missed_xfer = 1` exactly when its
recomputed wait time exists (trip link) and is negative, and a path is
flagged `missed_xfer = 1` exactly when at least one of its links is so
flagged. -/
theorem missed_transfer_flags (links : List SimPathLink) (tl pn : ℕ) :
    (∀ l : SimPathLink, link_missed_xfer l = 1 ↔
        ∃ w, new_wait_time l = some w ∧ w < 0)
    ∧ (path_missed_xfer links tl pn = 1 ↔
        ∃ l ∈ links, l.trip_list_id_num = tl ∧ l.path_num = pn ∧ link_missed_xfer l = 1) := by
  constructor
  · intro l
    unfold link_missed_xfer
    rcases hw : new_wait_time l with _ | w
    · simp
    · dsimp only
      constructor
      · intro h1
        refine ⟨w, rfl, ?_⟩
        by_contra hneg
        simp [if_neg hneg] at h1
      · rintro ⟨v, hv, hvneg⟩
        cases hv
        simp [if_pos hvneg]
  · unfold path_missed_xfer
    have key : (0 < ((links.filter fun l =>
          decide (l.trip_list_id_num = tl) && decide (l.path_num = pn)).map link_missed_xfer).sum) ↔
        ∃ l ∈ links, l.trip_list_id_num = tl ∧ l.path_num = pn ∧ link_missed_xfer l = 1 := by
      rw [Nat.pos_iff_ne_zero, Ne, List.sum_eq_zero_iff]
      push_neg
      constructor
      · rintro ⟨x, hx, hxne⟩
        rcases List.mem_map.mp hx with ⟨l, hl, rfl⟩
        rcases List.mem_filter.mp hl with ⟨hmem, hcond⟩
        simp only [Bool.and_eq_true, decide_eq_true_eq] at hcond
        refine ⟨l, hmem, hcond.1, hcond.2, ?_⟩
        rcases link_missed_xfer_eq_zero_or_one l with h0 | h1
        · exact absurd h0 hxne
        · exact h1
      · rintro ⟨l, hl, htl, hpn, h1⟩
        refine ⟨link_missed_xfer l, List.mem_map_of_mem _ (List.mem_filter.mpr ⟨hl, ?_⟩), by simp [h1]⟩
        simp [htl, hpn]
    by_cases hs : 0 < ((links.filter fun l =>
        decide (l.trip_list_id_num = tl) && decide (l.path_num = pn)).map link_missed_xfer).sum
    · simpa [hs] using key.mp hs
    · have h0 : ((links.filter fun l =>
          decide (l.trip_list_id_num = tl) && decide (l.path_num = pn)).map link_missed_xfer).sum = 0 :=
        Nat.eq_zero_of_not_pos hs
      simp only [hs, if_false, h0]
      constructor
      · intro h; exact absurd h.symm (by simp)
      · intro hex; exact absurd (key.mpr hex) hs

end FastTrips
